import Mathlib

/-!
Verification development for the InsightX multi-LLM orchestrator and judge.

The JavaScript source is shallowly embedded: network round-trips (axios calls,
Hugging Face inference calls) are modelled as oracle inputs supplying either the
extracted reply fields or the thrown error, wall-clock latency is an input, and
`Math.random()` draws are an input function.  Thrown JS errors are modelled as
`Except` errors; a JS `try`/`catch` becomes a `match` on the `Except`.
-/

namespace InsightX

/-- JS `a || b` for an optional string `a` (both `undefined` and `""` are falsy). -/
def jsOr (o : Option String) (d : String) : String :=
  match o with
  | none => d
  | some s => if s = "" then d else s

/-- Char-list prefix test. -/
def isPrefixL : List Char → List Char → Bool
  | [], _ => true
  | _ :: _, [] => false
  | a :: as, b :: bs => a = b && isPrefixL as bs

/-- Char-list substring test. -/
def containsL (needle : List Char) : List Char → Bool
  | [] => isPrefixL needle []
  | c :: cs => isPrefixL needle (c :: cs) || containsL needle cs

/-- JS `hay.includes(needle)` (case-sensitive substring test). -/
def strContains (hay needle : String) : Bool :=
  containsL needle.toList hay.toList

/-! ## Provider registry (`multiLlmService.js`) -/

/-- The process environment slots read by the provider table
(`process.env.GEMINI_API_KEY` and friends); `none` models an unset variable. -/
structure Env where
  geminiKey : Option String
  openaiKey : Option String
  claudeKey : Option String
  perplexityKey : Option String

structure ProviderConfig where
  name : String
  baseUrl : String
  models : List String
  apiKey : Option String
  defaultModel : String

/-- The `PROVIDERS` table, keyed in object-insertion order. -/
def PROVIDERS (env : Env) : List (String × ProviderConfig) :=
  [ ("gemini",
     { name := "Google Gemini"
       baseUrl := "https://generativelanguage.googleapis.com/v1beta"
       models := ["gemini-pro", "gemini-pro-vision"]
       apiKey := env.geminiKey
       defaultModel := "gemini-pro" }),
    ("openai",
     { name := "OpenAI GPT"
       baseUrl := "https://api.openai.com/v1"
       models := ["gpt-3.5-turbo", "gpt-3.5-turbo-16k"]
       apiKey := env.openaiKey
       defaultModel := "gpt-3.5-turbo" }),
    ("claude",
     { name := "Anthropic Claude"
       baseUrl := "https://api.anthropic.com/v1"
       models := ["claude-3-opus-20240229", "claude-3-sonnet-20240229",
                  "claude-3-haiku-20240307"]
       apiKey := env.claudeKey
       defaultModel := "claude-3-sonnet-20240229" }),
    ("perplexity",
     { name := "Perplexity AI"
       baseUrl := "https://api.perplexity.ai"
       models := ["llama-3.1-sonar-large-128k-online",
                  "llama-3.1-sonar-small-128k-online"]
       apiKey := env.perplexityKey
       defaultModel := "llama-3.1-sonar-large-128k-online" }) ]

def lookupProvider (env : Env) (provider : String) : Option ProviderConfig :=
  (PROVIDERS env).lookup provider

/-- `Object.keys(PROVIDERS)` in insertion order. -/
def providerKeys : List String := ["gemini", "openai", "claude", "perplexity"]

/-- `validateApiKey`: `config && config.apiKey && config.apiKey !== 'your-api-key-here'`
(an absent or empty key is falsy). -/
def validateApiKey (env : Env) (provider : String) : Bool :=
  match lookupProvider env provider with
  | none => false
  | some config =>
    match config.apiKey with
    | none => false
    | some k => k ≠ "" && k ≠ "your-api-key-here"

/-- `getAvailableProviders`: the provider names with valid API keys. -/
def getAvailableProviders (env : Env) : List String :=
  providerKeys.filter (fun provider => validateApiKey env provider)

/-! ## Generation settings -/

/-- Caller-supplied `settings` object; `none` models an absent key. -/
structure Settings where
  temperature : Option ℚ := none
  maxTokens : Option Nat := none
  systemPrompt : Option String := none
  timeout : Option Nat := none
  model : Option String := none

/-- `{ ...DEFAULT_SETTINGS, ...settings }` (spread merge: a present key wins
even when its value is falsy). -/
structure MergedSettings where
  temperature : ℚ
  maxTokens : Nat
  systemPrompt : String
  timeout : Nat
  model : Option String

def mergeSettings (settings : Settings) : MergedSettings :=
  { temperature := settings.temperature.getD (7 / 10)
    maxTokens := settings.maxTokens.getD 1000
    systemPrompt := settings.systemPrompt.getD
      "You are a helpful AI assistant. Provide clear, accurate, and helpful responses."
    timeout := settings.timeout.getD 30000
    model := settings.model }

/-! ## Network oracle

An axios call either resolves or rejects with a JS error value.  The
classifier in `generateResponseFromProvider` inspects `error.response`
(HTTP status plus `data?.error?.message`), `error.code`, and `error.message`,
so those are exactly the fields the error model carries. -/

/-- A thrown JS error, as observed by the catch blocks of the service. -/
inductive JsError where
  /-- A plain `new Error(message)` with neither `response` nor `code`. -/
  | plain (msg : String)
  /-- An axios error carrying `error.response` (HTTP status and the optional
  `response.data?.error?.message`) plus `error.message`. -/
  | http (status : Nat) (dataMsg : Option String) (msg : String)
  /-- An axios error without `response` but with `error.code`
  (`ECONNABORTED`, `ENOTFOUND`, `ECONNREFUSED`, ...). -/
  | withCode (code : String) (msg : String)

/-- The fields a provider generator extracts from a resolved HTTP reply:
the optional content text (`none` = missing, `some ""` = present but empty)
and the optional usage counters (each defaulted with `|| 0` in the source). -/
structure RawReply where
  text : Option String
  promptTokens : Option Nat := none
  completionTokens : Option Nat := none
  totalTokens : Option Nat := none

structure TokenUsage where
  prompt : Nat
  completion : Nat
  total : Nat
  deriving DecidableEq, Repr

/-- What a per-provider generator returns on success. -/
structure GenSuccess where
  content : String
  tokens : TokenUsage
  deriving DecidableEq, Repr

/-! ## Per-provider generators

Request-payload construction,  URLs and headers flow only into the network
call, which is the oracle input here, so they leave no observable trace in
the embedding; each generator's observable behaviour is its API-key guard,
the extraction/emptiness check of the reply text, the `.trim()`, and the
token-usage mapping. -/

def generateGeminiResponse (env : Env) (_userMessage : String) (_settings : Settings)
    (outcome : Except JsError RawReply) : Except JsError GenSuccess :=
  if ¬ validateApiKey env "gemini" then
    .error (.plain "Gemini API key not configured or invalid")
  else
    match outcome with
    | .error e => .error e
    | .ok reply =>
      match reply.text with
      | none => .error (.plain "No response generated from Gemini API")
      | some t =>
        if t = "" then .error (.plain "No response generated from Gemini API")
        else .ok { content := t.trim
                   tokens := { prompt := reply.promptTokens.getD 0
                               completion := reply.completionTokens.getD 0
                               total := reply.totalTokens.getD 0 } }

def generateOpenAIResponse (env : Env) (_userMessage : String) (_settings : Settings)
    (outcome : Except JsError RawReply) : Except JsError GenSuccess :=
  if ¬ validateApiKey env "openai" then
    .error (.plain "OpenAI API key not configured or invalid")
  else
    match outcome with
    | .error e => .error e
    | .ok reply =>
      match reply.text with
      | none => .error (.plain "No response generated from OpenAI API")
      | some t =>
        if t = "" then .error (.plain "No response generated from OpenAI API")
        else .ok { content := t.trim
                   tokens := { prompt := reply.promptTokens.getD 0
                               completion := reply.completionTokens.getD 0
                               total := reply.totalTokens.getD 0 } }

def generateClaudeResponse (env : Env) (_userMessage : String) (_settings : Settings)
    (outcome : Except JsError RawReply) : Except JsError GenSuccess :=
  if ¬ validateApiKey env "claude" then
    .error (.plain "Claude API key not configured or invalid")
  else
    match outcome with
    | .error e => .error e
    | .ok reply =>
      match reply.text with
      | none => .error (.plain "No response generated from Claude API")
      | some t =>
        if t = "" then .error (.plain "No response generated from Claude API")
        else .ok { content := t.trim
                   tokens := { prompt := reply.promptTokens.getD 0
                               completion := reply.completionTokens.getD 0
                               total := reply.promptTokens.getD 0 +
                                        reply.completionTokens.getD 0 } }

def generatePerplexityResponse (env : Env) (_userMessage : String) (_settings : Settings)
    (outcome : Except JsError RawReply) : Except JsError GenSuccess :=
  if ¬ validateApiKey env "perplexity" then
    .error (.plain "Perplexity API key not configured or invalid")
  else
    match outcome with
    | .error e => .error e
    | .ok reply =>
      match reply.text with
      | none => .error (.plain "No response generated from Perplexity API")
      | some t =>
        if t = "" then .error (.plain "No response generated from Perplexity API")
        else .ok { content := t.trim
                   tokens := { prompt := reply.promptTokens.getD 0
                               completion := reply.completionTokens.getD 0
                               total := reply.totalTokens.getD 0 } }

/-- The `generators` lookup object. -/
def generators (provider : String) :
    Option (Env → String → Settings → Except JsError RawReply → Except JsError GenSuccess) :=
  if provider = "gemini" then some generateGeminiResponse
  else if provider = "openai" then some generateOpenAIResponse
  else if provider = "claude" then some generateClaudeResponse
  else if provider = "perplexity" then some generatePerplexityResponse
  else none

/-! ## Dispatch engine: `generateResponseFromProvider` -/

/-- The canonical result shape.  Success carries
`{content, tokens, provider, model, processingTime, success: true}`; failure
carries `{provider, success: false, error, errorType, processingTime}`.
(The `timestamp` field is untracked wall-clock noise and is omitted.) -/
inductive GenerationResult where
  | ok (provider : String) (content : String) (tokens : TokenUsage)
       (model : String) (processingTime : Nat)
  | fail (provider : String) (error : String) (errorType : String)
         (processingTime : Nat)
  deriving DecidableEq, Repr

def GenerationResult.provider : GenerationResult → String
  | .ok p _ _ _ _ => p
  | .fail p _ _ _ => p

def GenerationResult.success : GenerationResult → Bool
  | .ok _ _ _ _ _ => true
  | .fail _ _ _ _ => false

/-- The `errorType` field of a failure result. -/
def GenerationResult.errorKind : GenerationResult → Option String
  | .ok _ _ _ _ _ => none
  | .fail _ _ et _ => some et

/-- The try-block of `generateResponseFromProvider`: unsupported-provider
guard, API-key guard, then the provider generator; any thrown error
propagates. -/
def generateAttempt (env : Env) (provider : String) (userMessage : String)
    (settings : Settings) (outcome : Except JsError RawReply) :
    Except JsError GenSuccess :=
  match generators provider with
  | none => .error (.plain ("Unsupported provider: " ++ provider))
  | some g =>
    if ¬ validateApiKey env provider then
      .error (.plain
        (jsOr ((lookupProvider env provider).map (·.name)) provider ++
          " API key not configured"))
    else g env userMessage settings outcome

/-- The catch-block of `generateResponseFromProvider`: classify the thrown
error into an `errorType` and message.  `pName` renders
`PROVIDERS[provider]?.name` as interpolated into a template string
(JS prints `undefined` for a missing entry). -/
def interpolatedName (env : Env) (provider : String) : String :=
  match lookupProvider env provider with
  | some c => c.name
  | none => "undefined"

def classifyError (env : Env) (provider : String) (e : JsError) (pt : Nat) :
    GenerationResult :=
  let pName := interpolatedName env provider
  match e with
  | .http status dataMsg msg =>
    if status = 401 then
      .fail provider ("Invalid API key for " ++ pName) "auth_error" pt
    else if status = 429 then
      .fail provider ("Rate limit exceeded for " ++ pName) "rate_limit" pt
    else if status = 400 then
      .fail provider (jsOr dataMsg ("Bad request to " ++ pName)) "bad_request" pt
    else if status = 500 ∨ status = 502 ∨ status = 503 then
      .fail provider (pName ++ " service temporarily unavailable") "service_error" pt
    else
      .fail provider (pName ++ " API error: " ++ jsOr dataMsg msg) "api_error" pt
  | .withCode code msg =>
    if code = "ECONNABORTED" then
      .fail provider ("Timeout: " ++ pName ++ " took too long to respond") "timeout" pt
    else
      .fail provider msg "unknown" pt
  | .plain msg => .fail provider msg "unknown" pt

/-- `generateResponseFromProvider(provider, userMessage, settings)`, with the
network outcome and the measured wall-clock latency `pt` as oracle inputs. -/
def generateResponseFromProvider (env : Env) (provider : String)
    (userMessage : String) (settings : Settings)
    (outcome : Except JsError RawReply) (pt : Nat) : GenerationResult :=
  match generateAttempt env provider userMessage settings outcome with
  | .ok r =>
    let defModel := match lookupProvider env provider with
      | some c => c.defaultModel
      | none => "undefined"
    .ok provider r.content r.tokens (jsOr settings.model defModel) pt
  | .error e => classifyError env provider e pt

/-! ## Dispatch engine: `generateMultiProviderResponses`

`Promise.allSettled` is modelled explicitly: the fan-out creates one task per
available provider; each task `i` terminates (tasks never reject, see C2) and
its completion is an event `(i, result)`.  The events arrive in an arbitrary
order — this order is an input — and `allSettled` places each result at its
task's index in a result array.  `settle` is that placement. -/

/-- Place completion events into an `n`-slot result array by task index
(a write past the end is dropped; it cannot occur for well-formed events). -/
def settle (n : Nat) (events : List (Nat × GenerationResult)) :
    List (Option GenerationResult) :=
  events.foldl (fun acc e => acc.set e.1 (some e.2)) (List.replicate n none)

/-- The per-task results of the fan-out: task `i` runs
`generateResponseFromProvider` on the `i`-th available provider, with its own
network outcome `outcomes i` and latency `pts i`. -/
def multiResults (env : Env) (providers : List String) (userMessage : String)
    (settings : Settings) (outcomes : Nat → Except JsError RawReply)
    (pts : Nat → Nat) : List GenerationResult :=
  ((providers.filter (fun p => validateApiKey env p)).enum).map
    (fun e => generateResponseFromProvider env e.2 userMessage settings
      (outcomes e.1) (pts e.1))

/-- `generateMultiProviderResponses(providers, userMessage, settings)`.
The first component models the return value (`.error` models the thrown
`'No valid API keys configured for any providers'`); the second component is
the list of providers actually dispatched (the `promises` array), which is
empty when the function fails fast.  `events` is the completion order of the
settled tasks; the final per-index map `{provider: availableProviders[index],
...result.value}` is the identity on fulfilled task results (the spread of
`result.value` wins and its `provider` field already equals
`availableProviders[index]`), and tasks never reject, so the
`'promise_error'` branch is dead code. -/
def generateMultiProviderResponses (env : Env) (providers : List String)
    (_userMessage : String) (_settings : Settings)
    (events : List (Nat × GenerationResult)) :
    Except String (List (Option GenerationResult)) × List String :=
  let availableProviders := providers.filter (fun p => validateApiKey env p)
  if availableProviders.length = 0 then
    (.error "No valid API keys configured for any providers", [])
  else
    (.ok (settle availableProviders.length events), availableProviders)

/-! ## Connection tester (`testProviderConnections`) -/

/-- The outcome, for one configured provider, of racing the probe call
against the 10-second `Connection timeout` rejection: either the generation
promise settles first (carrying its own network outcome and latency), or the
timer fires first. -/
inductive Probe where
  | done (outcome : Except JsError RawReply) (pt : Nat)
  | raceTimeout

/-- One entry of the tester's `results` object (absent fields are `none`). -/
structure ProbeResult where
  status : String
  name : String
  available : Bool
  error : Option String := none
  errorType : Option String := none
  model : Option String := none
  processingTime : Option Nat := none
  deriving DecidableEq, Repr

/-- The fixed probe prompt. -/
def testMessage : String :=
  "Hello, please respond with just " ++ Char.toString (Char.ofNat 39) ++ "OK" ++
    Char.toString (Char.ofNat 39) ++ " to test the connection."

/-- The probe settings `{ maxTokens: 10, temperature: 0 }`. -/
def probeSettings : Settings := { maxTokens := some 10, temperature := some 0 }

/-- The catch-block classifier of the tester loop.  In the embedding the only
reachable thrown error is the race's `Connection timeout` rejection (the
generation promise never rejects), but the classifier is embedded whole. -/
def testCatchClassify (e : JsError) : String × String :=
  match e with
  | .http status _ _ =>
    if status = 401 then ("invalid_api_key", "Invalid or expired API key")
    else if status = 429 then ("rate_limited", "Rate limit exceeded")
    else if status = 403 then ("permission_denied", "Permission denied")
    else ("api_error", "API error (" ++ toString status ++ ")")
  | .withCode code msg =>
    if code = "ECONNABORTED" ∨ strContains msg "timeout" then
      ("timeout", "Connection timeout")
    else if code = "ENOTFOUND" ∨ code = "ECONNREFUSED" then
      ("network_error", "Network connection failed")
    else ("connection_error", msg)
  | .plain msg =>
    if strContains msg "timeout" then ("timeout", "Connection timeout")
    else ("connection_error", msg)

/-- The loop body of `testProviderConnections` for one provider entry.
Returns the result entry together with a flag telling whether a network call
was issued (i.e. whether the probe oracle was consumed). -/
def probeProvider (env : Env) (probe : String → Probe) (provider : String)
    (config : ProviderConfig) : ProbeResult × Bool :=
  if ¬ validateApiKey env provider then
    ({ status := "not_configured", error := some "API key not provided"
       name := config.name, available := false }, false)
  else
    match probe provider with
    | .raceTimeout =>
      let c := testCatchClassify (.plain "Connection timeout")
      ({ status := "error", error := some c.2, errorType := some c.1
         name := config.name, available := false }, true)
    | .done outcome pt =>
      match generateResponseFromProvider env provider testMessage probeSettings
          outcome pt with
      | .ok _ _ _ model processingTime =>
        ({ status := "connected", name := config.name, model := some model
           processingTime := some processingTime, available := true }, true)
      | .fail _ err errType _ =>
        ({ status := "error", error := some err, errorType := some errType
           name := config.name, available := false }, true)

/-- `testProviderConnections`: the `results` object, keyed by provider in
table order. -/
def testProviderConnections (env : Env) (probe : String → Probe) :
    List (String × ProbeResult) :=
  (PROVIDERS env).map (fun e => (e.1, (probeProvider env probe e.1 e.2).1))

/-- The providers for which the tester issued a network call. -/
def testNetworkTrace (env : Env) (probe : String → Probe) : List String :=
  (PROVIDERS env).filterMap
    (fun e => if (probeProvider env probe e.1 e.2).2 then some e.1 else none)

/-! ## Judge evaluator (`judgeService.js`) -/

/-- A token of the task-mismatch detection patterns: a literal, `\s*`, or
`[\s\S]*` (the leading token of each pattern is `[\s\S]*` because
`RegExp.test` searches anywhere in the string). -/
inductive RTok where
  | lit (s : List Char)
  | wsStar
  | anyStar

/-- `\s*` followed by a continuation: skip any run of whitespace. -/
def rmatchWs (next : List Char → Bool) : List Char → Bool
  | [] => next []
  | c :: rest => next (c :: rest) || (c.isWhitespace && rmatchWs next rest)

/-- `[\s\S]*` followed by a continuation: skip any run of characters (this
also provides the implicit leading search of `RegExp.test`). -/
def rmatchAny (next : List Char → Bool) : List Char → Bool
  | [] => next []
  | c :: rest => next (c :: rest) || rmatchAny next rest

/-- Existence of a match of the token sequence at the head of `cs`. -/
def rmatch : List RTok → List Char → Bool
  | [], _ => true
  | .lit s :: ps, cs => isPrefixL s cs && rmatch ps (cs.drop s.length)
  | .wsStar :: ps, cs => rmatchWs (rmatch ps) cs
  | .anyStar :: ps, cs => rmatchAny (rmatch ps) cs

def litP (s : String) : RTok := .lit s.toList

/-- The three case-insensitive task-mismatch signatures tested on the primary
invocation's fault message:
`/supported\s*for\s*task\s*text-generation[\s\S]*conversational/i`,
`/Supported task:\s*conversational/i`, and
`/is not supported for task text-generation/i`.
(Case-insensitivity is realised by lowercasing the subject; the patterns are
written lowercase.) -/
def taskMismatchSignature (msg : String) : Bool :=
  let m := msg.toList.map Char.toLower
  rmatch [.anyStar, litP "supported", .wsStar, litP "for", .wsStar, litP "task",
          .wsStar, litP "text-generation", .anyStar, litP "conversational"] m ||
  rmatch [.anyStar, litP "supported task:", .wsStar, litP "conversational"] m ||
  rmatch [.anyStar, litP "is not supported for task text-generation"] m

/-- `buildJudgePrompt(question, responses)` (JS renders an out-of-range
`responses[i]` as `undefined` in the template). -/
def buildJudgePrompt (question : String) (responses : List String) : String :=
  "You are an expert AI judge tasked with evaluating responses to questions. " ++
  "Please analyze the following question and four responses, then provide a detailed evaluation.\n\n" ++
  "Question: \"" ++ question ++ "\"\n\n" ++
  "Responses to evaluate:\n" ++
  "1. " ++ responses.getD 0 "undefined" ++ "\n" ++
  "2. " ++ responses.getD 1 "undefined" ++ "\n" ++
  "3. " ++ responses.getD 2 "undefined" ++ "\n" ++
  "4. " ++ responses.getD 3 "undefined" ++ "\n\n" ++
  "Please evaluate each response based on:\n" ++
  "- Accuracy and correctness\n" ++
  "- Completeness and depth\n" ++
  "- Clarity and coherence\n" ++
  "- Relevance to the question\n\n" ++
  "Provide your judgment in the following format:\n" ++
  "RANKING: [Best to worst, e.g., \"3, 1, 4, 2\"]\n" ++
  "SCORES: [Score out of 10 for each response, e.g., \"9, 7, 8, 6\"]\n" ++
  "REASONING: [Brief explanation for your ranking]\n\n" ++
  "Your evaluation:"

/-- `{ranking, scores, reasoning, fullText}` as returned by `parseJudgement`
and `generateMockJudgement`. -/
structure Judgement where
  ranking : String
  scores : String
  reasoning : String
  fullText : String
  deriving DecidableEq, Repr

/-- JS `String.prototype.split` on a single separator character, over char
lists (splitting `""` yields `[""]`, like JS). -/
def jsSplitChar (sep : Char) : List Char → List (List Char)
  | [] => [[]]
  | c :: rest =>
    match jsSplitChar sep rest with
    | [] => [[]]
    | cur :: groups =>
      if c = sep then [] :: cur :: groups else (c :: cur) :: groups

/-- JS `String.prototype.trim` over a char list. -/
def trimL (cs : List Char) : List Char :=
  ((cs.dropWhile Char.isWhitespace).reverse.dropWhile Char.isWhitespace).reverse

/-- `rawText.split('\n').map(trim).filter(line => line)`, over char lists. -/
def parseLines (rawText : String) : List (List Char) :=
  ((jsSplitChar (Char.ofNat 10) rawText.toList).map trimL).filter (fun l => l ≠ [])

/-- `line.toUpperCase().startsWith(tag)`. -/
def upperStarts (line : List Char) (tag : String) : Bool :=
  isPrefixL tag.toList (line.map Char.toUpper)

/-- The scan loop of `parseJudgement`: case-insensitive prefix tests for
`RANKING:` / `SCORES:` / `REASONING:`; on `REASONING:` the remaining lines are
joined with spaces, the 10-character header is cut off, and the loop breaks. -/
def scanJudgeLines : List (List Char) → Option (List Char) → Option (List Char) →
    Option (List Char) × Option (List Char) × List Char
  | [], ranking, scores => (ranking, scores, [])
  | line :: rest, ranking, scores =>
    if upperStarts line "RANKING:" then
      scanJudgeLines rest (some (trimL (line.drop 8))) scores
    else if upperStarts line "SCORES:" then
      scanJudgeLines rest ranking (some (trimL (line.drop 7)))
    else if upperStarts line "REASONING:" then
      (ranking, scores, trimL ((List.intercalate [' '] (line :: rest)).drop 10))
    else scanJudgeLines rest ranking scores

/-- JS `a || b` for a nullable captured field (a `null` or empty capture
falls back to the default). -/
def jsOrL (o : Option (List Char)) (d : String) : String :=
  match o with
  | none => d
  | some cs => if cs = [] then d else cs.asString

/-- `parseJudgement(rawText)`.  The surrounding `try`/`catch` of the source
cannot fire (every operation in the body is total on strings), so the
`Parse error` branch is dead code and the function is total. -/
def parseJudgement (rawText : String) : Judgement :=
  let s := scanJudgeLines (parseLines rawText) none none
  { ranking := jsOrL s.1 "Not provided"
    scores := jsOrL s.2.1 "Not provided"
    reasoning := if s.2.2 = [] then "No reasoning provided" else s.2.2.asString
    fullText := rawText }

/-! ### Mock judgement -/

/-- The character class of the `hasSpecialChars` test
(`[!@#$%^&*(),.?":{}|<>]`; code points 123 and 125 are the braces). -/
def specialChars : List Char :=
  "!@#$%^&*(),.?\":".toList ++ [Char.ofNat 123, Char.ofNat 125] ++ "|<>".toList

/-- One element of `scoredResponses` (1-based `index`). -/
structure ScoredResp where
  index : Nat
  length : Nat
  hasNumbers : Bool
  hasSpecialChars : Bool
  wordCount : Nat
  deriving DecidableEq, Repr

/-- A scored response after the ranking pass added `score`. -/
structure RankedResp extends ScoredResp where
  score : ℚ
  deriving DecidableEq, Repr

def mkScored (responses : List String) : List ScoredResp :=
  responses.enum.map (fun e =>
    { index := e.1 + 1
      length := e.2.length
      hasNumbers := e.2.toList.any Char.isDigit
      hasSpecialChars := e.2.toList.any (fun c => specialChars.contains c)
      wordCount := (jsSplitChar ' ' e.2.toList).length })

/-- `Math.min(10, Math.max(1, wordCount*0.1 + numbers + specials + random*3))`,
over exact rationals; `r` is the `Math.random()` draw. -/
def mockScore (resp : ScoredResp) (r : ℚ) : ℚ :=
  min 10 (max 1 ((resp.wordCount : ℚ) * (1 / 10) +
    (if resp.hasNumbers then 1 else 0) +
    (if resp.hasSpecialChars then 1 / 2 else 0) + r * 3))

def mkRanked (responses : List String) (rand : Nat → ℚ) : List RankedResp :=
  (mkScored responses).enum.map
    (fun e => { toScoredResp := e.2, score := mockScore e.2 (rand e.1) })

/-- Stable insertion step for the descending sort by `score`
(`.sort((a, b) => b.score - a.score)`). -/
def insertDesc (x : RankedResp) : List RankedResp → List RankedResp
  | [] => [x]
  | y :: ys => if x.score ≤ y.score then y :: insertDesc x ys else x :: y :: ys

def sortScoredDesc : List RankedResp → List RankedResp
  | [] => []
  | x :: xs => insertDesc x (sortScoredDesc xs)

/-- JS `Math.round` on an exact rational (round half toward `+∞`). -/
def jsRound (q : ℚ) : ℤ := Int.floor (q + 1 / 2)

/-- `generateMockJudgement(question, responses)`; `rand i` is the
`Math.random()` draw used for the `i`-th response (0-based). -/
def generateMockJudgement (_question : String) (responses : List String)
    (rand : Nat → ℚ) : Judgement :=
  let rankedResponses := sortScoredDesc (mkRanked responses rand)
  let ranking := ", ".intercalate (rankedResponses.map (fun r => toString r.index))
  let scores := ", ".intercalate (responses.enum.map (fun e =>
    toString (jsRound (match rankedResponses.find? (fun r => r.index = e.1 + 1) with
      | some found => found.score
      | none => 5))))
  let reasoning := match rankedResponses with
    | top :: _ =>
      "Mock evaluation based on response length, content richness, and completeness. Response "
        ++ toString top.index ++ " appears most comprehensive with "
        ++ toString top.wordCount
        ++ " words and detailed content structure. This is a fallback response due to AI model unavailability."
    | [] => ""   -- the source reads `rankedResponses[0].index` and would throw here
  { ranking := ranking
    scores := scores
    reasoning := reasoning
    fullText := "RANKING: " ++ ranking ++ "\nSCORES: " ++ scores ++
      "\nREASONING: Mock evaluation - AI judge model temporarily unavailable." }

/-! ### `judgeResponses` -/

/-- One Hugging Face inference invocation, as recorded in the call trace. -/
inductive JudgeCall where
  | textGeneration (inputs : String)
  | chatCompletion (system user : String)
  deriving DecidableEq, Repr

/-- The oracle for one `judgeResponses` run: the outcome of the primary
`textGeneration` invocation and of the fallback `chatCompletion` invocation
(each yields the normalized generated text, or throws with a message), plus
the `Math.random()` draws consumed by a mock judgement. -/
structure JudgeEnv where
  primary : Except String String
  fallback : Except String String
  rand : Nat → ℚ

structure JudgeData where
  question : String
  responses : List String
  judgement : Judgement
  rawOutput : String
  deriving DecidableEq, Repr

/-- The value returned by `judgeResponses`:
`{success: true, data}` or `{success: false, error, data: null}`. -/
structure JudgeResult where
  success : Bool
  error : Option String := none
  data : Option JudgeData := none
  deriving DecidableEq, Repr

/-- The outer catch's mock trigger:
`error.message.includes('No Inference Provider available') ||
 error.message.includes('Failed to fetch inference provider')`. -/
def hfUnavailable (msg : String) : Bool :=
  strContains msg "No Inference Provider available" ||
  strContains msg "Failed to fetch inference provider"

/-- The outer catch-block of `judgeResponses`: a mock judgement when the
fault message signals HF unavailability, a reported failure otherwise. -/
def judgeOuterCatch (question : String) (responses : List String)
    (env : JudgeEnv) (errMsg : String) : JudgeResult :=
  if hfUnavailable errMsg then
    { success := true
      data := some { question := question
                     responses := responses
                     judgement := generateMockJudgement question responses env.rand
                     rawOutput := "Mock response - HF API unavailable" } }
  else { success := false, error := some errMsg }

def judgeSystemMessage : String := "You are an impartial AI judge."

/-- `judgeResponses(question, responses)` with the invocation outcomes as an
oracle; also returns the trace of HF invocations issued.  The input guard
throws for a falsy question or a response count other than 4; that throw
lands in the outer catch like every other fault. -/
def judgeResponses (question : String) (responses : List String)
    (env : JudgeEnv) : JudgeResult × List JudgeCall :=
  if question = "" ∨ responses.length ≠ 4 then
    (judgeOuterCatch question responses env
      "Invalid input: question and exactly 4 responses are required", [])
  else
    let prompt := buildJudgePrompt question responses
    match env.primary with
    | .ok generatedText =>
      ({ success := true
         data := some { question := question
                        responses := responses
                        judgement := parseJudgement generatedText
                        rawOutput := generatedText } },
       [.textGeneration prompt])
    | .error innerMsg =>
      if taskMismatchSignature innerMsg then
        match env.fallback with
        | .ok generatedText =>
          ({ success := true
             data := some { question := question
                            responses := responses
                            judgement := parseJudgement generatedText
                            rawOutput := generatedText } },
           [.textGeneration prompt, .chatCompletion judgeSystemMessage prompt])
        | .error fbMsg =>
          (judgeOuterCatch question responses env fbMsg,
           [.textGeneration prompt, .chatCompletion judgeSystemMessage prompt])
      else
        (judgeOuterCatch question responses env innerMsg, [.textGeneration prompt])

/-! ## Shared facts about the dispatch engine -/

/-- A sample environment in which all four providers hold a valid key. -/
def keysEnv : Env :=
  { geminiKey := some "k", openaiKey := some "k", claudeKey := some "k"
    perplexityKey := some "k" }

/-- A sample environment in which no provider holds a key. -/
def noKeysEnv : Env :=
  { geminiKey := none, openaiKey := none, claudeKey := none, perplexityKey := none }

/-- The catch-block classifier always produces a failure result carrying the
given provider and latency. -/
lemma classifyError_fail (env : Env) (provider : String) (e : JsError) (pt : Nat) :
    ∃ m t, classifyError env provider e pt = .fail provider m t pt := by
  cases e with
  | http status dataMsg msg =>
    unfold classifyError
    dsimp only
    split_ifs <;> exact ⟨_, _, rfl⟩
  | withCode code msg =>
    unfold classifyError
    dsimp only
    split_ifs <;> exact ⟨_, _, rfl⟩
  | plain msg => exact ⟨_, _, rfl⟩

/-- For a supported, configured provider the try-block re-raises any network
fault unchanged (both guards pass and the generator forwards the error). -/
lemma generateAttempt_error (env : Env) (userMessage : String) (settings : Settings)
    {provider : String} (e : JsError)
    (hsup : provider ∈ providerKeys) (hkey : validateApiKey env provider = true) :
    generateAttempt env provider userMessage settings (.error e) = .error e := by
  fin_cases hsup <;>
    simp [generateAttempt, generators, generateGeminiResponse, generateOpenAIResponse,
      generateClaudeResponse, generatePerplexityResponse, hkey]

/-- For a supported, configured provider a network fault is handled exactly by
the catch-block classifier. -/
lemma generate_error_eq (env : Env) (userMessage : String) (settings : Settings)
    {provider : String} (e : JsError) (pt : Nat)
    (hsup : provider ∈ providerKeys) (hkey : validateApiKey env provider = true) :
    generateResponseFromProvider env provider userMessage settings (.error e) pt =
      classifyError env provider e pt := by
  unfold generateResponseFromProvider
  rw [generateAttempt_error env userMessage settings e hsup hkey]

/-! ## C2 -/

/-- C2: `generate` never raises.  For every provider id (including unsupported
or unconfigured ones), every prompt and settings object, every network outcome
— a resolved reply or a thrown transport fault — and every measured latency,
`generateResponseFromProvider` evaluates to a single `GenerationResult`
value: either a success carrying content, tokens, model and processing time,
or a failure carrying provider, error message, error type and processing
time.  A per-backend fault is data, not an exception, at this boundary. -/
theorem generate_never_raises (env : Env) (provider userMessage : String)
    (settings : Settings) (outcome : Except JsError RawReply) (pt : Nat) :
    (∃ content tokens model,
        generateResponseFromProvider env provider userMessage settings outcome pt =
          .ok provider content tokens model pt) ∨
    (∃ err errType,
        generateResponseFromProvider env provider userMessage settings outcome pt =
          .fail provider err errType pt) := by
  unfold generateResponseFromProvider
  cases h : generateAttempt env provider userMessage settings outcome with
  | ok r => exact .inl ⟨r.content, r.tokens, _, rfl⟩
  | error e =>
    obtain ⟨m, t, he⟩ := classifyError_fail env provider e pt
    exact .inr ⟨m, t, he⟩

/-! ## C4 -/

/-- C4 counterexample: an HTTP 403 fault on a configured provider is
classified as the generic `api_error`, not as a permission-denied kind. -/
theorem http403_classified_api_error :
    (generateResponseFromProvider keysEnv "gemini" "hi" {}
        (.error (.http 403 none "Request failed with status code 403")) 5).errorKind =
      some "api_error" := by rfl

/-- C4 (amended): the fault classification of a single-provider `generate`
call on a supported, configured provider is: HTTP 401 → `auth_error`,
429 → `rate_limit`, 400 → `bad_request`, 500/502/503 → `service_error`,
every other HTTP status (including 403 and 504) → `api_error`, an
`ECONNABORTED` abort → `timeout`, and every non-HTTP fault — including
unreachable-host errors such as `ENOTFOUND`/`ECONNREFUSED` — keeps the
initial `unknown` kind. -/
theorem generate_fault_classification (env : Env) (provider userMessage : String)
    (settings : Settings) (pt : Nat)
    (hsup : provider ∈ providerKeys) (hkey : validateApiKey env provider = true) :
    (∀ d m, (generateResponseFromProvider env provider userMessage settings
        (.error (.http 401 d m)) pt).errorKind = some "auth_error") ∧
    (∀ d m, (generateResponseFromProvider env provider userMessage settings
        (.error (.http 429 d m)) pt).errorKind = some "rate_limit") ∧
    (∀ d m, (generateResponseFromProvider env provider userMessage settings
        (.error (.http 400 d m)) pt).errorKind = some "bad_request") ∧
    (∀ s d m, s = 500 ∨ s = 502 ∨ s = 503 →
      (generateResponseFromProvider env provider userMessage settings
        (.error (.http s d m)) pt).errorKind = some "service_error") ∧
    (∀ s d m, s ≠ 401 → s ≠ 429 → s ≠ 400 → ¬(s = 500 ∨ s = 502 ∨ s = 503) →
      (generateResponseFromProvider env provider userMessage settings
        (.error (.http s d m)) pt).errorKind = some "api_error") ∧
    (∀ m, (generateResponseFromProvider env provider userMessage settings
        (.error (.withCode "ECONNABORTED" m)) pt).errorKind = some "timeout") ∧
    (∀ c m, c ≠ "ECONNABORTED" →
      (generateResponseFromProvider env provider userMessage settings
        (.error (.withCode c m)) pt).errorKind = some "unknown") ∧
    (∀ m, (generateResponseFromProvider env provider userMessage settings
        (.error (.plain m)) pt).errorKind = some "unknown") := by
  refine ⟨?_, ?_, ?_, ?_, ?_, ?_, ?_, ?_⟩
  · intro d m
    rw [generate_error_eq env userMessage settings _ pt hsup hkey]
    simp [classifyError, GenerationResult.errorKind]
  · intro d m
    rw [generate_error_eq env userMessage settings _ pt hsup hkey]
    simp [classifyError, GenerationResult.errorKind]
  · intro d m
    rw [generate_error_eq env userMessage settings _ pt hsup hkey]
    simp [classifyError, GenerationResult.errorKind]
  · intro s d m hs
    rw [generate_error_eq env userMessage settings _ pt hsup hkey]
    rcases hs with h | h | h <;> subst h <;>
      simp [classifyError, GenerationResult.errorKind]
  · intro s d m h1 h2 h3 h4
    rw [generate_error_eq env userMessage settings _ pt hsup hkey]
    simp [classifyError, GenerationResult.errorKind, h1, h2, h3, h4]
  · intro m
    rw [generate_error_eq env userMessage settings _ pt hsup hkey]
    simp [classifyError, GenerationResult.errorKind]
  · intro c m hc
    rw [generate_error_eq env userMessage settings _ pt hsup hkey]
    simp [classifyError, GenerationResult.errorKind, hc]
  · intro m
    rw [generate_error_eq env userMessage settings _ pt hsup hkey]
    simp [classifyError, GenerationResult.errorKind]

/-- Witness for the amended C4 at a concrete provider and fault. -/
theorem generate_fault_classification_witness :
    (generateResponseFromProvider keysEnv "openai" "hi" {}
        (.error (.http 401 none "Request failed with status code 401")) 9).errorKind =
      some "auth_error" :=
  (generate_fault_classification keysEnv "openai" "hi" {} 9 (by decide) (by rfl)).1
    none "Request failed with status code 401"

/-! ## C7 -/

/-- The literal provider label used in each generator's empty-reply error
message (`'No response generated from <label> API'`). -/
def generatorApiLabel (provider : String) : String :=
  if provider = "gemini" then "Gemini"
  else if provider = "openai" then "OpenAI"
  else if provider = "claude" then "Claude"
  else if provider = "perplexity" then "Perplexity"
  else provider

/-- C7 counterexample: an otherwise-successful reply with missing content
yields a failure whose `errorType` is the generic `unknown` — the very same
kind an unreachable-host fault receives — so there is no dedicated
empty-response error kind. -/
theorem empty_reply_error_kind_not_distinct :
    (generateResponseFromProvider keysEnv "gemini" "hi" {} (.ok { text := none }) 7) =
      .fail "gemini" "No response generated from Gemini API" "unknown" 7 ∧
    (generateResponseFromProvider keysEnv "gemini" "hi" {}
        (.error (.withCode "ENOTFOUND" "getaddrinfo ENOTFOUND example.com")) 7).errorKind =
      (generateResponseFromProvider keysEnv "gemini" "hi" {}
        (.ok { text := none }) 7).errorKind := by
  constructor <;> rfl

/-- C7 (amended): on a supported, configured provider, a resolved reply whose
content is missing or empty makes `generate` return a failure whose message
is the provider-specific `No response generated from … API` text and whose
`errorType` is the generic `unknown` (no dedicated empty-response kind). -/
theorem generate_empty_reply_failure (env : Env) (provider userMessage : String)
    (settings : Settings) (pt : Nat) (reply : RawReply)
    (hsup : provider ∈ providerKeys) (hkey : validateApiKey env provider = true)
    (hempty : reply.text = none ∨ reply.text = some "") :
    generateResponseFromProvider env provider userMessage settings (.ok reply) pt =
      .fail provider ("No response generated from " ++ generatorApiLabel provider ++ " API")
        "unknown" pt := by
  fin_cases hsup <;> rcases hempty with h | h <;>
    simp [generateResponseFromProvider, generateAttempt, generators,
      generateGeminiResponse, generateOpenAIResponse, generateClaudeResponse,
      generatePerplexityResponse, classifyError, generatorApiLabel, hkey, h]

/-- Witness for the amended C7. -/
theorem generate_empty_reply_failure_witness :
    generateResponseFromProvider keysEnv "claude" "hi" {} (.ok { text := some "" }) 2 =
      .fail "claude" "No response generated from Claude API" "unknown" 2 :=
  generate_empty_reply_failure keysEnv "claude" "hi" {} 2 { text := some "" }
    (by decide) (by rfl) (.inr rfl)

/-! ## C5 -/

/-- C5: when no requested provider holds a valid credential, the fan-out
fails fast with the `No valid API keys configured for any providers` error,
dispatches no per-provider call (the promise list is empty), and does so
independently of any completion events — i.e. before any network
activity. -/
theorem generateMany_fail_fast (env : Env) (providers : List String)
    (events : List (Nat × GenerationResult))
    (userMessage : String) (settings : Settings)
    (h : providers.filter (fun p => validateApiKey env p) = []) :
    generateMultiProviderResponses env providers userMessage settings events =
      (.error "No valid API keys configured for any providers", []) := by
  unfold generateMultiProviderResponses
  simp [h]

/-- Witness for C5: two requested providers, neither configured. -/
theorem generateMany_fail_fast_witness :
    generateMultiProviderResponses noKeysEnv ["gemini", "openai"] "hi" {}
        [(0, .fail "gemini" "e" "unknown" 0)] =
      (.error "No valid API keys configured for any providers", []) :=
  generateMany_fail_fast noKeysEnv ["gemini", "openai"]
    [(0, .fail "gemini" "e" "unknown" 0)] "hi" {} (by rfl)

/-! ## C1: order-independence of the settled fan-out -/

/-- Positional characterization of index-keyed writes of the enumerated
results into an accumulator array. -/
lemma foldl_set_enumFrom {α : Type} (results : List α) :
    ∀ (k : Nat) (acc : List (Option α)) (j : Nat),
      ((results.enumFrom k).foldl (fun a e => a.set e.1 (some e.2)) acc)[j]? =
        if k ≤ j ∧ j < k + results.length ∧ j < acc.length then
          (results.map some)[j - k]?
        else acc[j]? := by
  induction results with
  | nil =>
    intro k acc j
    simp only [List.length_nil]
    rw [if_neg (by omega)]
    rfl
  | cons r rest ih =>
    intro k acc j
    simp only [List.length_cons]
    rw [List.enumFrom_cons, List.foldl_cons]
    rw [ih (k + 1) (acc.set k (some r)) j]
    rw [List.length_set]
    by_cases hj : j = k
    · subst hj
      rw [if_neg (by omega)]
      by_cases hk : j < acc.length
      · rw [List.getElem?_set_self hk, if_pos (by omega)]
        simp
      · rw [List.set_eq_of_length_le (by omega), if_neg (by omega)]
    · by_cases hcond : k + 1 ≤ j ∧ j < k + 1 + rest.length ∧ j < acc.length
      · rw [if_pos hcond, if_pos (by omega)]
        have hjk : j - k = (j - (k + 1)) + 1 := by omega
        rw [hjk]
        simp
      · rw [if_neg hcond, if_neg (by omega), List.getElem?_set_ne (by omega)]

/-- Settling the enumerated results in their own order reproduces the result
list. -/
lemma settle_enum (results : List GenerationResult) :
    settle results.length results.enum = results.map some := by
  apply List.ext_getElem?
  intro j
  unfold settle
  rw [List.enum_eq_enumFrom, foldl_set_enumFrom results 0 _ j]
  rw [List.length_replicate]
  by_cases hj : j < results.length
  · rw [if_pos (by omega)]
    simp
  · rw [if_neg (by omega), List.getElem?_replicate,
      if_neg (by omega), List.getElem?_eq_none (by simpa using by omega)]

/-- Two entries of an enumeration with the same index are equal. -/
lemma enum_fst_inj {α : Type} {l : List α} {x y : Nat × α}
    (hx : x ∈ l.enum) (hy : y ∈ l.enum) (h : x.1 = y.1) : x = y := by
  rw [List.mem_iff_getElem?] at hx hy
  obtain ⟨i, hi⟩ := hx
  obtain ⟨i2, hi2⟩ := hy
  rw [List.enum_eq_enumFrom, List.getElem?_enumFrom] at hi hi2
  cases hli : l[i]? with
  | none => rw [hli] at hi; cases hi
  | some a =>
    cases hli2 : l[i2]? with
    | none => rw [hli2] at hi2; cases hi2
    | some a2 =>
      rw [hli, Option.map_some'] at hi
      rw [hli2, Option.map_some'] at hi2
      injection hi with hi
      injection hi2 with hi2
      subst hi
      subst hi2
      simp only [Nat.zero_add] at h hli hli2 ⊢
      subst h
      rw [hli] at hli2
      injection hli2 with hli2
      subst hli2
      rfl

/-- Settling any permutation of the completion events reproduces the result
list: `Promise.allSettled` output is independent of completion order. -/
lemma settle_of_perm (results : List GenerationResult)
    (events : List (Nat × GenerationResult)) (hp : events.Perm results.enum) :
    settle results.length events = results.map some := by
  rw [← settle_enum results]
  unfold settle
  refine hp.foldl_eq' ?_ _
  intro x hx y hy z
  by_cases hxy : x.1 = y.1
  · have := enum_fst_inj (hp.mem_iff.mp hx) (hp.mem_iff.mp hy) hxy
    subst this
    rfl
  · exact List.set_comm _ _ _ hxy

/-- C1: for every requested provider list, prompt, settings, per-task network
outcomes and latencies, and every completion order of the concurrent calls
(any permutation of the tasks' completion events), `generateMany` returns
`availableProviders` (the requested providers with valid credentials, in
request order) together with one result slot per such provider; the list has
exactly the intersection's length, and the `i`-th slot holds the result of
dispatching the `i`-th provider of the intersection — independent of which
call completed first. -/
theorem generateMany_length_and_order (env : Env) (providers : List String)
    (userMessage : String) (settings : Settings)
    (outcomes : Nat → Except JsError RawReply) (pts : Nat → Nat)
    (events : List (Nat × GenerationResult))
    (hne : providers.filter (fun p => validateApiKey env p) ≠ [])
    (hev : events.Perm
      (multiResults env providers userMessage settings outcomes pts).enum) :
    generateMultiProviderResponses env providers userMessage settings events =
      (.ok ((multiResults env providers userMessage settings outcomes pts).map some),
       providers.filter (fun p => validateApiKey env p)) ∧
    (multiResults env providers userMessage settings outcomes pts).length =
      (providers.filter (fun p => validateApiKey env p)).length ∧
    ∀ i, (multiResults env providers userMessage settings outcomes pts)[i]? =
      ((providers.filter (fun p => validateApiKey env p))[i]?).map
        (fun p => generateResponseFromProvider env p userMessage settings
          (outcomes i) (pts i)) := by
  have hlen : (multiResults env providers userMessage settings outcomes pts).length =
      (providers.filter (fun p => validateApiKey env p)).length := by
    simp [multiResults, List.enum_eq_enumFrom]
  refine ⟨?_, hlen, ?_⟩
  · unfold generateMultiProviderResponses
    dsimp only
    rw [if_neg (by simpa [List.length_eq_zero] using hne)]
    rw [← hlen, settle_of_perm _ events hev]
  · intro i
    simp only [multiResults, List.getElem?_map, List.enum_eq_enumFrom,
      List.getElem?_enumFrom, Option.map_map]
    cases hfp : (providers.filter (fun p => validateApiKey env p))[i]? with
    | none => rfl
    | some p => simp [Function.comp]

/-- Witness for C1: two configured providers, with the completion events
delivered in reverse order. -/
theorem generateMany_length_and_order_witness :
    generateMultiProviderResponses keysEnv ["gemini", "openai"] "hi" {}
        ((multiResults keysEnv ["gemini", "openai"] "hi" {}
          (fun _ => .ok { text := some "hello" }) (fun i => i)).enum.reverse) =
      (.ok ((multiResults keysEnv ["gemini", "openai"] "hi" {}
          (fun _ => .ok { text := some "hello" }) (fun i => i)).map some),
       ["gemini", "openai"].filter (fun p => validateApiKey keysEnv p)) :=
  (generateMany_length_and_order keysEnv ["gemini", "openai"] "hi" {}
    (fun _ => .ok { text := some "hello" }) (fun i => i) _
    (by decide) (List.reverse_perm _)).1

/-! ## C9: the connection tester -/

/-- A provider appears in the tester's network trace iff its table entry's
loop body issued a call. -/
lemma testNetworkTrace_mem (env : Env) (probe : String → Probe) (p : String) :
    p ∈ testNetworkTrace env probe ↔
      ∃ c, (p, c) ∈ PROVIDERS env ∧ (probeProvider env probe p c).2 = true := by
  unfold testNetworkTrace
  rw [List.mem_filterMap]
  constructor
  · rintro ⟨e, he, hf⟩
    by_cases hflag : (probeProvider env probe e.1 e.2).2 = true
    · rw [if_pos hflag] at hf
      injection hf with hf
      subst hf
      exact ⟨e.2, he, hflag⟩
    · rw [if_neg hflag] at hf
      cases hf
  · rintro ⟨c, hc, hflag⟩
    exact ⟨(p, c), hc, by simp [hflag]⟩

/-- An unconfigured provider's loop body reports `not_configured` and issues
no network call. -/
lemma probeProvider_not_configured (env : Env) (probe : String → Probe)
    (provider : String) (c : ProviderConfig)
    (h : validateApiKey env provider = false) :
    probeProvider env probe provider c =
      ({ status := "not_configured", error := some "API key not provided"
         name := c.name, available := false }, false) := by
  unfold probeProvider
  rw [if_pos (by simp [h])]

/-- A configured provider's loop body always issues a network call. -/
lemma probeProvider_flag_true (env : Env) (probe : String → Probe)
    (provider : String) (c : ProviderConfig)
    (h : validateApiKey env provider = true) :
    (probeProvider env probe provider c).2 = true := by
  unfold probeProvider
  rw [if_neg (by simp [h])]
  cases hp : probe provider with
  | raceTimeout => rfl
  | done out pt =>
    cases hg : generateResponseFromProvider env provider testMessage
        probeSettings out pt <;> simp [hg]

/-- A configured provider's entry is `connected` iff the probe settled with a
present, non-empty content text. -/
lemma probeProvider_connected_iff (env : Env) (probe : String → Probe)
    {provider : String} (c : ProviderConfig)
    (hsup : provider ∈ providerKeys) (hkey : validateApiKey env provider = true) :
    (probeProvider env probe provider c).1.status = "connected" ↔
      ∃ out pt reply t, probe provider = .done out pt ∧ out = .ok reply ∧
        reply.text = some t ∧ t ≠ "" := by
  unfold probeProvider
  rw [if_neg (by simp [hkey])]
  cases hp : probe provider with
  | raceTimeout => simp [testCatchClassify]
  | done out pt =>
    dsimp only
    cases out with
    | error e =>
      rw [generate_error_eq env testMessage probeSettings e pt hsup hkey]
      obtain ⟨m, t2, he⟩ := classifyError_fail env provider e pt
      rw [he]
      simp
    | ok reply =>
      fin_cases hsup
      all_goals cases htext : reply.text with
        | none =>
          simp [generateResponseFromProvider, generateAttempt, generators,
            generateGeminiResponse, generateOpenAIResponse, generateClaudeResponse,
            generatePerplexityResponse, classifyError, hkey, htext]
        | some t =>
          by_cases ht : t = "" <;>
            simp [generateResponseFromProvider, generateAttempt, generators,
              generateGeminiResponse, generateOpenAIResponse, generateClaudeResponse,
              generatePerplexityResponse, classifyError, hkey, htext, ht]

/-- The registry entry for a provider id (a dummy descriptor off the
registry). -/
def registryConfig (env : Env) (provider : String) : ProviderConfig :=
  ((PROVIDERS env).lookup provider).getD
    { name := "", baseUrl := "", models := [], apiKey := none, defaultModel := "" }

/-- The tester's result entry for each registry provider is its loop body's
result on its registry descriptor. -/
lemma testProviderConnections_lookup_keys (env : Env) (probe : String → Probe)
    {provider : String} (hsup : provider ∈ providerKeys) :
    (testProviderConnections env probe).lookup provider =
      some (probeProvider env probe provider (registryConfig env provider)).1 := by
  fin_cases hsup <;> rfl

/-- A configured registry provider always appears in the tester's network
trace. -/
lemma testNetworkTrace_mem_of_valid (env : Env) (probe : String → Probe)
    {provider : String} (hsup : provider ∈ providerKeys)
    (hkey : validateApiKey env provider = true) :
    provider ∈ testNetworkTrace env probe := by
  rw [testNetworkTrace_mem]
  fin_cases hsup
  · exact ⟨registryConfig env "gemini", .head _,
      probeProvider_flag_true env probe _ _ hkey⟩
  · exact ⟨registryConfig env "openai", .tail _ (.head _),
      probeProvider_flag_true env probe _ _ hkey⟩
  · exact ⟨registryConfig env "claude", .tail _ (.tail _ (.head _)),
      probeProvider_flag_true env probe _ _ hkey⟩
  · exact ⟨registryConfig env "perplexity", .tail _ (.tail _ (.tail _ (.head _))),
      probeProvider_flag_true env probe _ _ hkey⟩

/-- C9: for every provider of the registry: if it lacks a valid credential,
`testProviderConnections` reports it `not_configured` (with the
`API key not provided` note and `available: false`) and issues no network
call for it; if it is configured, a probe call is issued (the fixed
`testMessage` prompt under the probe settings, raced against the connection
timeout), and its status is `connected` exactly when the probe settled with
a reply whose content text is present and non-empty. -/
theorem tester_probe_behavior (env : Env) (probe : String → Probe)
    (provider : String) (hsup : provider ∈ providerKeys) :
    (validateApiKey env provider = false →
      ((testProviderConnections env probe).lookup provider).map
          (fun r => (r.status, r.error, r.available)) =
        some ("not_configured", some "API key not provided", false) ∧
      provider ∉ testNetworkTrace env probe) ∧
    (validateApiKey env provider = true →
      provider ∈ testNetworkTrace env probe ∧
      (((testProviderConnections env probe).lookup provider).map (·.status) =
          some "connected" ↔
        ∃ out pt reply t, probe provider = .done out pt ∧ out = .ok reply ∧
          reply.text = some t ∧ t ≠ "")) := by
  fin_cases hsup <;> refine ⟨fun h => ⟨?_, ?_⟩, fun h => ⟨?_, ?_⟩⟩
  all_goals first
    | (rw [testProviderConnections_lookup_keys env probe (by decide),
        probeProvider_not_configured env probe _ _ h]
       rfl)
    | (rw [testNetworkTrace_mem]
       rintro ⟨c, hc, hflag⟩
       simp [PROVIDERS] at hc
       subst hc
       rw [probeProvider_not_configured env probe _ _ h] at hflag
       simp at hflag)
    | (exact testNetworkTrace_mem_of_valid env probe (by decide) h)
    | (rw [testProviderConnections_lookup_keys env probe (by decide)]
       simp only [Option.map_some', Option.some.injEq]
       exact probeProvider_connected_iff env probe _ (by decide) h)

/-- Witness for C9: an unconfigured provider reports `not_configured`, and a
configured provider whose probe settles with non-empty content reports
`connected`. -/
theorem tester_probe_behavior_witness :
    ((testProviderConnections noKeysEnv (fun _ => Probe.raceTimeout)).lookup
        "gemini").map (fun r => (r.status, r.error, r.available)) =
      some ("not_configured", some "API key not provided", false) ∧
    ((testProviderConnections keysEnv
        (fun _ => Probe.done (.ok { text := some "OK" }) 1)).lookup
        "gemini").map (·.status) = some "connected" :=
  ⟨((tester_probe_behavior noKeysEnv (fun _ => Probe.raceTimeout) "gemini"
      (by decide)).1 (by rfl)).1,
   (((tester_probe_behavior keysEnv
      (fun _ => Probe.done (.ok { text := some "OK" }) 1) "gemini"
      (by decide)).2 (by rfl)).2).mpr
    ⟨.ok { text := some "OK" }, 1, { text := some "OK" }, "OK",
      rfl, rfl, rfl, by decide⟩⟩

/-! ## C8: the judgement parser -/

/-- A line that passes the `REASONING:` prefix test fails the `RANKING:`
one (the tests are on the same uppercased line and the tags differ at their
second character). -/
lemma upperStarts_reasoning_not_ranking {line : List Char}
    (h : upperStarts line "REASONING:" = true) :
    upperStarts line "RANKING:" = false := by
  unfold upperStarts at h ⊢
  match hcs : line.map Char.toUpper with
  | [] => rw [hcs] at h; exact absurd h (by decide)
  | [c] => rw [hcs] at h; simp [isPrefixL] at h
  | c0 :: c1 :: rest =>
    rw [hcs] at h
    have hR : "REASONING:".toList = ['R','E','A','S','O','N','I','N','G',':'] := rfl
    have hK : "RANKING:".toList = ['R','A','N','K','I','N','G',':'] := rfl
    rw [hR] at h
    rw [hK]
    simp [isPrefixL] at h ⊢
    obtain ⟨h0, h1, _⟩ := h
    subst h0
    subst h1
    intro
    simp

/-- A line that passes the `REASONING:` prefix test fails the `SCORES:` one
(the tags differ at their first character). -/
lemma upperStarts_reasoning_not_scores {line : List Char}
    (h : upperStarts line "REASONING:" = true) :
    upperStarts line "SCORES:" = false := by
  unfold upperStarts at h ⊢
  match hcs : line.map Char.toUpper with
  | [] => rw [hcs] at h; exact absurd h (by decide)
  | c0 :: rest =>
    rw [hcs] at h
    have hR : "REASONING:".toList = ['R','E','A','S','O','N','I','N','G',':'] := rfl
    have hS : "SCORES:".toList = ['S','C','O','R','E','S',':'] := rfl
    rw [hR] at h
    rw [hS]
    simp [isPrefixL] at h ⊢
    obtain ⟨h0, _⟩ := h
    subst h0
    intro hx
    cases hx

/-- If no line passes the `RANKING:` test, the scan leaves the ranking state
untouched. -/
lemma scan_ranking_of_none (lines : List (List Char))
    (h : ∀ l ∈ lines, upperStarts l "RANKING:" = false) :
    ∀ r s, (scanJudgeLines lines r s).1 = r := by
  induction lines with
  | nil => intro r s; rfl
  | cons line rest ih =>
    intro r s
    have hline := h line (List.mem_cons_self _ _)
    have hrest : ∀ l ∈ rest, upperStarts l "RANKING:" = false :=
      fun l hl => h l (List.mem_cons_of_mem _ hl)
    unfold scanJudgeLines
    rw [if_neg (by simp [hline])]
    by_cases h2 : upperStarts line "SCORES:" = true
    · rw [if_pos h2]; exact ih hrest _ _
    · rw [if_neg h2]
      by_cases h3 : upperStarts line "REASONING:" = true
      · rw [if_pos h3]
      · rw [if_neg h3]; exact ih hrest _ _

/-- If no line passes the `SCORES:` test, the scan leaves the scores state
untouched. -/
lemma scan_scores_of_none (lines : List (List Char))
    (h : ∀ l ∈ lines, upperStarts l "SCORES:" = false) :
    ∀ r s, (scanJudgeLines lines r s).2.1 = s := by
  induction lines with
  | nil => intro r s; rfl
  | cons line rest ih =>
    intro r s
    have hline := h line (List.mem_cons_self _ _)
    have hrest : ∀ l ∈ rest, upperStarts l "SCORES:" = false :=
      fun l hl => h l (List.mem_cons_of_mem _ hl)
    unfold scanJudgeLines
    by_cases h1 : upperStarts line "RANKING:" = true
    · rw [if_pos h1]; exact ih hrest _ _
    · rw [if_neg h1, if_neg (by simp [hline])]
      by_cases h3 : upperStarts line "REASONING:" = true
      · rw [if_pos h3]
      · rw [if_neg h3]; exact ih hrest _ _

/-- If no line passes the `REASONING:` test, the scan's captured reasoning is
empty. -/
lemma scan_reasoning_of_none (lines : List (List Char))
    (h : ∀ l ∈ lines, upperStarts l "REASONING:" = false) :
    ∀ r s, (scanJudgeLines lines r s).2.2 = [] := by
  induction lines with
  | nil => intro r s; rfl
  | cons line rest ih =>
    intro r s
    have hline := h line (List.mem_cons_self _ _)
    have hrest : ∀ l ∈ rest, upperStarts l "REASONING:" = false :=
      fun l hl => h l (List.mem_cons_of_mem _ hl)
    unfold scanJudgeLines
    by_cases h1 : upperStarts line "RANKING:" = true
    · rw [if_pos h1]; exact ih hrest _ _
    · rw [if_neg h1]
      by_cases h2 : upperStarts line "SCORES:" = true
      · rw [if_pos h2]; exact ih hrest _ _
      · rw [if_neg h2, if_neg (by simp [hline])]
        exact ih hrest _ _

/-- At the first line passing the `REASONING:` test, the scan captures the
space-join of that line and everything after it, with the 10-character header
cut and the result trimmed. -/
lemma scan_reasoning_capture (pre : List (List Char)) (line : List Char)
    (rest : List (List Char)) (hline : upperStarts line "REASONING:" = true)
    (hpre : ∀ l ∈ pre, upperStarts l "REASONING:" = false) :
    ∀ r s, (scanJudgeLines (pre ++ line :: rest) r s).2.2 =
      trimL ((List.intercalate [' '] (line :: rest)).drop 10) := by
  induction pre with
  | nil =>
    intro r s
    rw [List.nil_append]
    unfold scanJudgeLines
    rw [if_neg (by simp [upperStarts_reasoning_not_ranking hline]),
      if_neg (by simp [upperStarts_reasoning_not_scores hline]), if_pos hline]
  | cons p pre' ih =>
    intro r s
    have hp := hpre p (List.mem_cons_self _ _)
    have hpre' : ∀ l ∈ pre', upperStarts l "REASONING:" = false :=
      fun l hl => hpre l (List.mem_cons_of_mem _ hl)
    rw [List.cons_append]
    unfold scanJudgeLines
    by_cases h1 : upperStarts p "RANKING:" = true
    · rw [if_pos h1]; exact ih hpre' _ _
    · rw [if_neg h1]
      by_cases h2 : upperStarts p "SCORES:" = true
      · rw [if_pos h2]; exact ih hpre' _ _
      · rw [if_neg h2, if_neg (by simp [hp])]
        exact ih hpre' _ _

/-- C8 counterexample: when the raw text omits the `REASONING:` field, the
substituted default is the string `No reasoning provided`, not the
`Not provided` marker used for the other two fields. -/
theorem parse_reasoning_default_marker :
    (parseJudgement "").reasoning = "No reasoning provided" ∧
    (parseJudgement "").reasoning ≠ "Not provided" := by
  constructor <;> decide

/-- C8 (amended): `parse` trims and scans the lines of `rawText`
case-insensitively (each tag test runs on the uppercased line): if no line
starts with `RANKING:` the ranking defaults to `Not provided`, if none
starts with `SCORES:` the scores default to `Not provided`, and if none
starts with `REASONING:` the reasoning defaults to `No reasoning provided`;
at the first `REASONING:` line the reasoning captures everything from that
line to the end of the text (the remaining trimmed lines joined by spaces,
header cut, trimmed — defaulted if the capture is empty).  `parse` is a
total function: it never raises. -/
theorem parse_field_defaults (raw : String) :
    ((∀ l ∈ parseLines raw, upperStarts l "RANKING:" = false) →
      (parseJudgement raw).ranking = "Not provided") ∧
    ((∀ l ∈ parseLines raw, upperStarts l "SCORES:" = false) →
      (parseJudgement raw).scores = "Not provided") ∧
    ((∀ l ∈ parseLines raw, upperStarts l "REASONING:" = false) →
      (parseJudgement raw).reasoning = "No reasoning provided") ∧
    (∀ pre line rest, parseLines raw = pre ++ line :: rest →
      upperStarts line "REASONING:" = true →
      (∀ l ∈ pre, upperStarts l "REASONING:" = false) →
      (parseJudgement raw).reasoning =
        (if trimL ((List.intercalate [' '] (line :: rest)).drop 10) = []
         then "No reasoning provided"
         else (trimL ((List.intercalate [' '] (line :: rest)).drop 10)).asString)) := by
  refine ⟨fun h => ?_, fun h => ?_, fun h => ?_, fun pre line rest hsplit hline hpre => ?_⟩
  · unfold parseJudgement
    dsimp only
    rw [scan_ranking_of_none (parseLines raw) h]
    rfl
  · unfold parseJudgement
    dsimp only
    rw [scan_scores_of_none (parseLines raw) h]
    rfl
  · unfold parseJudgement
    dsimp only
    rw [scan_reasoning_of_none (parseLines raw) h]
    rfl
  · unfold parseJudgement
    dsimp only
    rw [hsplit, scan_reasoning_capture pre line rest hline hpre]

/-- Witness for the amended C8: a text without any field defaults the
ranking, and a `Reasoning:` line captures to the end of the text. -/
theorem parse_field_defaults_witness :
    (parseJudgement "hello").ranking = "Not provided" ∧
    (parseJudgement "Reasoning: good\nmore").reasoning = "good more" := by
  refine ⟨(parse_field_defaults "hello").1 (by decide), ?_⟩
  have h := (parse_field_defaults "Reasoning: good\nmore").2.2.2 []
    "Reasoning: good".toList ["more".toList] (by decide) (by decide) (by simp)
  rw [h]
  decide

/-! ## C3 and C6: the judge's failure-recovery protocol -/

/-- C3 counterexample: the primary invocation fails with the task-mismatch
signature and the fallback invocation fails with `boom` — both invocations
failed — yet `judgeResponses` returns a reported failure
(`success: false`, no judgement), not a mock judgement. -/
theorem judge_double_failure_reports_failure :
    (judgeResponses "q" ["a", "b", "c", "d"]
      { primary := .error "Supported task: conversational"
        fallback := .error "boom", rand := fun _ => 0 }).1 =
      { success := false, error := some "boom", data := none } := by decide

/-- C3 (amended): when the primary invocation fails with the task-mismatch
signature and the fallback invocation also fails, `judgeResponses` never
raises: it returns the mock judgement — tagged by the
`Mock response - HF API unavailable` raw output — exactly when the
fallback's fault message carries an HF-unavailability signature, and a
`success: false` result carrying the fault message otherwise.  In both
cases exactly one primary and one fallback invocation were issued. -/
theorem judge_double_failure (question : String) (responses : List String)
    (env : JudgeEnv) (m1 m2 : String)
    (hq : question ≠ "") (hlen : responses.length = 4)
    (hp : env.primary = .error m1) (hmis : taskMismatchSignature m1 = true)
    (hf : env.fallback = .error m2) :
    (hfUnavailable m2 = true →
      (judgeResponses question responses env).1 =
        { success := true
          data := some { question := question, responses := responses
                         judgement := generateMockJudgement question responses env.rand
                         rawOutput := "Mock response - HF API unavailable" } }) ∧
    (hfUnavailable m2 = false →
      (judgeResponses question responses env).1 =
        { success := false, error := some m2, data := none }) ∧
    (judgeResponses question responses env).2 =
      [.textGeneration (buildJudgePrompt question responses),
       .chatCompletion judgeSystemMessage (buildJudgePrompt question responses)] := by
  unfold judgeResponses
  rw [if_neg (by simp [hq, hlen]), hp]
  dsimp only
  rw [if_pos hmis, hf]
  dsimp only
  unfold judgeOuterCatch
  refine ⟨fun hm => ?_, fun hm => ?_, ?_⟩
  · rw [if_pos hm]
  · rw [if_neg (by simp [hm])]
  · rfl

/-- Witness for the amended C3: both invocations fail and the fallback's
message signals HF unavailability, so the mock judgement is returned. -/
theorem judge_double_failure_witness :
    (judgeResponses "q" ["a", "b", "c", "d"]
      { primary := .error "is not supported for task text-generation"
        fallback := .error "No Inference Provider available"
        rand := fun _ => 0 }).1 =
      { success := true
        data := some { question := "q", responses := ["a", "b", "c", "d"]
                       judgement :=
                         generateMockJudgement "q" ["a", "b", "c", "d"] (fun _ => 0)
                       rawOutput := "Mock response - HF API unavailable" } } :=
  (judge_double_failure "q" ["a", "b", "c", "d"]
    { primary := .error "is not supported for task text-generation"
      fallback := .error "No Inference Provider available", rand := fun _ => 0 }
    "is not supported for task text-generation" "No Inference Provider available"
    (by decide) (by decide) rfl (by decide) rfl).1 (by decide)

/-- C6 counterexample: a primary fault without the task-mismatch signature
(`oops`): the fallback is never attempted (the trace holds only the primary
invocation) and the outcome is a reported failure, not a mock judgement. -/
theorem judge_plain_fault_no_mock :
    (judgeResponses "q" ["a", "b", "c", "d"]
        { primary := .error "oops", fallback := .ok "RANKING: 1,2,3,4"
          rand := fun _ => 0 }).1 =
      { success := false, error := some "oops", data := none } ∧
    (judgeResponses "q" ["a", "b", "c", "d"]
        { primary := .error "oops", fallback := .ok "RANKING: 1,2,3,4"
          rand := fun _ => 0 }).2 =
      [.textGeneration (buildJudgePrompt "q" ["a", "b", "c", "d"])] := by
  constructor <;> rfl

/-- C6 (amended): when the primary invocation fails with a message matching
the task-mismatch signature, the turn-based fallback invocation (system +
user messages) carrying the same prompt is attempted exactly once and its
parsed result is returned.  A primary fault without the signature skips the
fallback entirely and advances to the outer handler, which yields the mock
judgement only when the fault message carries an HF-unavailability
signature, and a reported failure otherwise. -/
theorem judge_task_mismatch_fallback_once (question : String)
    (responses : List String) (hq : question ≠ "") (hlen : responses.length = 4) :
    (∀ env m1 t, env.primary = .error m1 → taskMismatchSignature m1 = true →
      env.fallback = .ok t →
      judgeResponses question responses env =
        ({ success := true
           data := some { question := question, responses := responses
                          judgement := parseJudgement t, rawOutput := t } },
         [.textGeneration (buildJudgePrompt question responses),
          .chatCompletion judgeSystemMessage (buildJudgePrompt question responses)])) ∧
    (∀ env m1, env.primary = .error m1 → taskMismatchSignature m1 = false →
      (judgeResponses question responses env).2 =
        [.textGeneration (buildJudgePrompt question responses)] ∧
      (hfUnavailable m1 = true →
        (judgeResponses question responses env).1 =
          { success := true
            data := some { question := question, responses := responses
                           judgement := generateMockJudgement question responses env.rand
                           rawOutput := "Mock response - HF API unavailable" } }) ∧
      (hfUnavailable m1 = false →
        (judgeResponses question responses env).1 =
          { success := false, error := some m1, data := none })) := by
  constructor
  · intro env m1 t hp hmis hf
    unfold judgeResponses
    rw [if_neg (by simp [hq, hlen]), hp]
    dsimp only
    rw [if_pos hmis, hf]
  · intro env m1 hp hmis
    unfold judgeResponses
    rw [if_neg (by simp [hq, hlen]), hp]
    dsimp only
    rw [if_neg (by simp [hmis])]
    unfold judgeOuterCatch
    refine ⟨rfl, fun hm => ?_, fun hm => ?_⟩
    · rw [if_pos hm]
    · rw [if_neg (by simp [hm])]

/-- Witness for the amended C6: the exact task-mismatch signature triggers
one fallback invocation whose parsed result is returned. -/
theorem judge_task_mismatch_fallback_once_witness :
    judgeResponses "q" ["a", "b", "c", "d"]
        { primary := .error "Supported task: conversational"
          fallback := .ok "RANKING: 1,2,3,4", rand := fun _ => 0 } =
      ({ success := true
         data := some { question := "q", responses := ["a", "b", "c", "d"]
                        judgement := parseJudgement "RANKING: 1,2,3,4"
                        rawOutput := "RANKING: 1,2,3,4" } },
       [.textGeneration (buildJudgePrompt "q" ["a", "b", "c", "d"]),
        .chatCompletion judgeSystemMessage
          (buildJudgePrompt "q" ["a", "b", "c", "d"])]) :=
  (judge_task_mismatch_fallback_once "q" ["a", "b", "c", "d"]
    (by decide) (by decide)).1
    { primary := .error "Supported task: conversational"
      fallback := .ok "RANKING: 1,2,3,4", rand := fun _ => 0 }
    "Supported task: conversational" "RANKING: 1,2,3,4" rfl (by decide) rfl

/-! ## C10: shape of the mock judgement -/

lemma insertDesc_perm (x : RankedResp) (l : List RankedResp) :
    (insertDesc x l).Perm (x :: l) := by
  induction l with
  | nil => exact .refl _
  | cons y ys ih =>
    unfold insertDesc
    by_cases h : x.score ≤ y.score
    · rw [if_pos h]
      exact (ih.cons y).trans (List.Perm.swap x y ys)
    · rw [if_neg h]

lemma sortScoredDesc_perm (l : List RankedResp) : (sortScoredDesc l).Perm l := by
  induction l with
  | nil => exact .refl _
  | cons x xs ih => exact (insertDesc_perm x (sortScoredDesc xs)).trans (ih.cons x)

/-- The clamp `min(10, max(1, …))` keeps every mock score in `[1, 10]`. -/
lemma mockScore_bounds (resp : ScoredResp) (r : ℚ) :
    1 ≤ mockScore resp r ∧ mockScore resp r ≤ 10 := by
  unfold mockScore
  exact ⟨le_min (by norm_num) (le_max_left _ _), min_le_left _ _⟩

/-- Rounding a rational in `[1, 10]` yields an integer in `[1, 10]`. -/
lemma jsRound_bounds {q : ℚ} (h1 : 1 ≤ q) (h2 : q ≤ 10) :
    1 ≤ jsRound q ∧ jsRound q ≤ 10 := by
  unfold jsRound
  constructor
  · rw [Int.le_floor]
    push_cast
    linarith
  · calc Int.floor (q + 1 / 2) ≤ Int.floor ((21 : ℚ) / 2) :=
          Int.floor_le_floor (by linarith)
    _ = 10 := by norm_num

lemma mkRanked_score_bounds (responses : List String) (rand : Nat → ℚ) :
    ∀ fd ∈ mkRanked responses rand, 1 ≤ fd.score ∧ fd.score ≤ 10 := by
  intro fd hfd
  rw [mkRanked, List.mem_map] at hfd
  obtain ⟨e, _, rfl⟩ := hfd
  exact mockScore_bounds e.2 (rand e.1)

/-- C10: for every question, every list of exactly four responses and every
outcome of the random perturbation, the mock judgement's ranking is the
comma-join of a permutation of the 1-based indices `1..4`, and its scores
field is the comma-join of exactly four rounded integer scores, each
between 1 and 10 inclusive. -/
theorem mock_judgement_wellformed (question : String) (responses : List String)
    (rand : Nat → ℚ) (hlen : responses.length = 4) :
    (∃ idxs : List Nat, idxs.Perm [1, 2, 3, 4] ∧
      (generateMockJudgement question responses rand).ranking =
        ", ".intercalate (idxs.map toString)) ∧
    (∃ sc : List ℤ, sc.length = 4 ∧ (∀ x ∈ sc, 1 ≤ x ∧ x ≤ 10) ∧
      (generateMockJudgement question responses rand).scores =
        ", ".intercalate (sc.map toString)) := by
  obtain ⟨a, b, c, d, rfl⟩ : ∃ a b c d, responses = [a, b, c, d] := by
    match responses, hlen with
    | [a, b, c, d], _ => exact ⟨a, b, c, d, rfl⟩
  constructor
  · refine ⟨(sortScoredDesc (mkRanked [a, b, c, d] rand)).map (fun r => r.index),
      ?_, ?_⟩
    · have h1 := (sortScoredDesc_perm (mkRanked [a, b, c, d] rand)).map
        (fun r => r.index)
      have h2 : (mkRanked [a, b, c, d] rand).map (fun r => r.index) =
          [1, 2, 3, 4] := rfl
      rw [h2] at h1
      exact h1
    · unfold generateMockJudgement
      dsimp only
      rw [List.map_map]
      rfl
  · refine ⟨([a, b, c, d].enum).map (fun e =>
      jsRound (match (sortScoredDesc (mkRanked [a, b, c, d] rand)).find?
          (fun r => r.index = e.1 + 1) with
        | some found => found.score
        | none => 5)), ?_, ?_, ?_⟩
    · rfl
    · intro x hx
      rw [List.mem_map] at hx
      obtain ⟨e, _, rfl⟩ := hx
      cases hf : (sortScoredDesc (mkRanked [a, b, c, d] rand)).find?
          (fun r => r.index = e.1 + 1) with
      | none =>
        simp only [hf]
        exact jsRound_bounds (by norm_num) (by norm_num)
      | some found =>
        simp only [hf]
        have hmem : found ∈ mkRanked [a, b, c, d] rand :=
          (sortScoredDesc_perm _).subset (List.mem_of_find?_eq_some hf)
        obtain ⟨hlo, hhi⟩ := mkRanked_score_bounds [a, b, c, d] rand found hmem
        exact jsRound_bounds hlo hhi
    · unfold generateMockJudgement
      dsimp only
      rw [List.map_map]
      rfl

/-- Witness for C10 at four concrete responses and a constant random
draw. -/
theorem mock_judgement_wellformed_witness :
    (∃ idxs : List Nat, idxs.Perm [1, 2, 3, 4] ∧
      (generateMockJudgement "q" ["a", "bb 3", "c!", "dd ee ff"]
          (fun _ => 0)).ranking = ", ".intercalate (idxs.map toString)) ∧
    (∃ sc : List ℤ, sc.length = 4 ∧ (∀ x ∈ sc, 1 ≤ x ∧ x ≤ 10) ∧
      (generateMockJudgement "q" ["a", "bb 3", "c!", "dd ee ff"]
          (fun _ => 0)).scores = ", ".intercalate (sc.map toString)) :=
  mock_judgement_wellformed "q" ["a", "bb 3", "c!", "dd ee ff"] (fun _ => 0) rfl

end InsightX
